import Mathlib

/-!
Verification of the Archyards content-aggregation pipeline.

Shallow embedding of the core logic of the crawler repository:

* `fetcher.py` — the selection engine of `crawl_all` (dedupe by id, stable
  sort by `popularity_score` descending, greedy fill with a per-source cap
  of 2) and the scoring function `estimate_popularity`;
* `scheduler.py` — `merge_with_published`, `mark_as_published`, the
  publish filter of `run_pipeline`, the no-API-key rewrite fallback, and
  `archive_previous`;
* `api.py` — the pagination of `get_articles`, with Python slice
  semantics (negative indices included) modelled exactly.

Modelling conventions:

* Python float scores are modelled as `Rat`: every finite double is a
  rational and the code only adds, scales and compares scores.
* Article ids are md5 hex strings in the source; only equality on them is
  used, so they are modelled as `Nat`.
* Python `list.sort(key=..., reverse=True)` is a stable descending sort;
  `List.insertionSort` with the reflexive relation `score_ge` is the
  stable descending sort (ties keep their prior relative order).
* Fallible Python operations (`int(...)`, `shutil.copy`, duplicate
  keyword arguments) are modelled with `Except`; a `try/except` block of
  the source is a `match` on that `Except`.
-/

set_option maxRecDepth 20000

namespace Archyards

/-- Lifecycle states of the `status` field of an article record
(`fetcher.py` dataclass default `pending`; `rewriter.py` sets `rewritten`
or `rewrite_failed`; `scheduler.py` sets `published`). -/
inductive Status where
  | pending
  | rewritten
  | rewrite_failed
  | published
deriving DecidableEq

/-- The `Article` dataclass of `fetcher.py` (plus the two keys
`published_at_archyards` and `badge` that `scheduler.py`'s
`mark_as_published` adds to the record). `id` is a 12-hex-digit md5 string
in the source, used only for equality, modelled as `Nat`;
`popularity_score` is a Python float, modelled as `Rat`. -/
structure Article where
  id : Nat
  source_name : String
  source_logo : String
  original_title : String
  original_description : String
  url : String
  image_url : String
  published_at : String
  category : String
  tags : List String
  popularity_score : Rat
  comment_count : Nat
  rewritten_title : String
  rewritten_description : String
  status : Status
  published_at_archyards : String
  badge : String
deriving DecidableEq

/-- Build an article carrying only the fields the core logic reads
(id, source_name, popularity_score, status); the scrape-output strings are
irrelevant to selection, merge and publication. -/
def mkArt (i : Nat) (src : String) (score : Rat) (st : Status) : Article :=
  ⟨i, src, "", "", "", "", "", "", "", [], score, 0, "", "", st, "", ""⟩

/-! ## Selection engine (`fetcher.py`, `crawl_all`, lines 320–341) -/

/-- The dedupe loop of `crawl_all`: walk the crawled articles, keep the
first occurrence of each `id` (`seen` is the set of ids already kept). -/
def dedupe_go : List Article → List Nat → List Article
  | [], _ => []
  | a :: rest, seen =>
    if a.id ∈ seen then dedupe_go rest seen
    else a :: dedupe_go rest (a.id :: seen)

/-- `crawl_all`'s "Deduplicate by ID" step, started with an empty seen set. -/
def dedupe_by_id (articles : List Article) : List Article :=
  dedupe_go articles []

/-- The sort order of `unique.sort(key=lambda a: a.popularity_score,
reverse=True)`: `a` may stand before `b` when `a`'s score is ≥ `b`'s. -/
def score_ge (a b : Article) : Prop :=
  b.popularity_score ≤ a.popularity_score

instance score_ge_decidable : DecidableRel score_ge :=
  fun a b => inferInstanceAs (Decidable (b.popularity_score ≤ a.popularity_score))

instance score_ge_total : IsTotal Article score_ge :=
  ⟨fun a b => le_total b.popularity_score a.popularity_score⟩

instance score_ge_trans : IsTrans Article score_ge :=
  ⟨fun _ _ _ h1 h2 => le_trans h2 h1⟩

/-- `crawl_all`'s "Sort by popularity score desc": Python's stable sort,
modelled by the stable `insertionSort` (an article is inserted before the
first already-sorted article whose score it matches or exceeds, so equal
scores keep their prior relative order, as in CPython). -/
def sort_by_score (articles : List Article) : List Article :=
  articles.insertionSort score_ge

/-- The greedy fill loop of `crawl_all`: walk the sorted list; stop when
`top_n` articles are selected; admit an article only when its source has
contributed fewer than 2 so far (`source_count` is the dict, modelled as a
function with pointwise update). -/
def select_go (top_n : Nat) : List Article → List Article → (String → Nat) → List Article
  | [], selected, _ => selected
  | art :: rest, selected, source_count =>
    if top_n ≤ selected.length then selected
    else if source_count art.source_name < 2 then
      select_go top_n rest (selected ++ [art])
        (fun s => if s = art.source_name then source_count art.source_name + 1 else source_count s)
    else
      select_go top_n rest selected source_count

/-- The selection engine of `crawl_all` (dedupe → stable sort desc →
greedy fill with the per-source cap of 2), as a function of the
concatenated per-source crawl results. -/
def select (candidates : List Article) (top_n : Nat) : List Article :=
  select_go top_n (sort_by_score (dedupe_by_id candidates)) [] (fun _ => 0)

/-! ## Publish/merge engine (`scheduler.py`) -/

/-- `merge_with_published` (scheduler.py lines 59–77) as a function of the
new batch and the loaded published store: drop new articles whose `id` is
already in the store, prepend the survivors, truncate to the last 150
("Keep last 150 articles (approx 30 days × 5)"). -/
def merge_with_published (new_articles existing : List Article) : List Article :=
  let existing_ids := existing.map (fun a => a.id)
  let truly_new := new_articles.filter (fun a => a.id ∉ existing_ids)
  let merged := truly_new ++ existing
  merged.take 150

/-- `mark_as_published` (scheduler.py lines 80–87): stamp each article
with the publish timestamp `now`, the fixed badge `aggregated`, and status
`published`. -/
def mark_as_published (articles : List Article) (now : String) : List Article :=
  articles.map (fun a =>
    { a with published_at_archyards := now, badge := "aggregated", status := Status.published })

/-- The publish filter of `run_pipeline` (scheduler.py line 126):
`[a for a in rewritten if a.get("status") in ("rewritten", "pending")]`. -/
def to_publish_of (rewritten : List Article) : List Article :=
  rewritten.filter (fun a => a.status = Status.rewritten ∨ a.status = Status.pending)

/-- Steps 4 of `run_pipeline` (scheduler.py lines 124–129): filter to the
eligible statuses, stamp as published, merge with the existing store. -/
def publish_step (rewritten existing : List Article) (now : String) : List Article :=
  merge_with_published (mark_as_published (to_publish_of rewritten) now) existing

/-! ## The no-API-key rewrite fallback (`scheduler.py`, lines 111–116) -/

/-- The keys of the dict obtained by the json round-trip of an `Article`'s
`__dict__` in the fallback branch of `run_pipeline`: exactly the fields of
the `fetcher.py` dataclass, the key `status` among them (its default is
`pending`). -/
def article_dict_keys : List String :=
  ["id", "source_name", "source_logo", "original_title", "original_description",
   "url", "image_url", "published_at", "category", "tags",
   "popularity_score", "comment_count", "rewritten_title", "rewritten_description", "status"]

/-- One step of the fallback list comprehension `dict(**a, status="pending")`
(scheduler.py line 113) where `a` is the round-tripped article dict: a
Python call with a keyword argument that duplicates a key unpacked by `**a`
raises `TypeError`, so the call succeeds only when `status` is absent from
the dict's keys. -/
def dict_expand_status_pending (a : Article) : Except String Article :=
  if "status" ∈ article_dict_keys then
    Except.error "TypeError: dict got multiple values for keyword argument status"
  else
    Except.ok { a with status := Status.pending }

/-- The whole fallback branch taken when `CONFIG` has no api_key: rebuild
every crawled article with `status` forced to `pending`; the first raised
`TypeError` propagates (there is no try/except around the comprehension). -/
def rewrite_skip_fallback (articles : List Article) : Except String (List Article) :=
  articles.mapM dict_expand_status_pending

/-! ## Archival (`scheduler.py`, `archive_previous`, lines 46–56) -/

/-- The filesystem facts `archive_previous` depends on: whether the
published store file exists, and whether the `shutil.copy` to the dated
archive location raises (permissions, disk, ...). -/
structure FsState where
  published_exists : Bool
  copy_raises : Bool

/-- `archive_previous`: return at once when no published store exists
(no-op); otherwise copy it to `archive/published_<date>.json`.  The
function body has no try/except, so a raising `shutil.copy` propagates to
the caller as the error. -/
def archive_previous (fs : FsState) : Except String Unit :=
  if fs.published_exists = false then Except.ok ()
  else if fs.copy_raises then Except.error "shutil.copy raised"
  else Except.ok ()

/-- The start of `run_pipeline` (scheduler.py line 97): `archive_previous()`
is called bare — not wrapped in any try/except — so when it raises, the
remaining crawl, rewrite and publish-merge steps never run. -/
def pipeline_through_archive (fs : FsState) : Except String String :=
  (archive_previous fs).bind (fun _ => Except.ok "crawl, rewrite and publish steps run")

/-! ## Scoring (`fetcher.py`, `estimate_popularity`, lines 191–232) -/

/-- The feed entry fields the scoring function reads:
`published_parsed` / `updated_parsed` as epoch seconds when parseable,
`none` when absent or unparseable. -/
structure FeedEntry where
  published_parsed : Option Int
  updated_parsed : Option Int

/-- The scraped page as the scoring function queries it:
`selector_text sel` is the text of `soup.select_one(sel)` (`none` when no
element matches), `attr_value attr` the value of the first element carrying
the data attribute `attr` (`none` when no element does). -/
structure ScrapedPage where
  selector_text : String → Option String
  attr_value : String → Option String

/-- The one field of a `SOURCES` entry the scoring function reads. -/
structure SourceConfig where
  popularity_selector : Option String

/-- `"".join(filter(str.isdigit, text))`. -/
def pyDigits (s : String) : String :=
  ⟨s.data.filter Char.isDigit⟩

/-- Decimal value of a string of digit characters. -/
def natOfDigits (cs : List Char) : Nat :=
  cs.foldl (fun n c => 10 * n + (c.toNat - 48)) 0

/-- Python `int(str)` on the strings this code feeds it: an optional minus
sign followed by at least one digit parses; anything else raises
`ValueError`.  (CPython also strips whitespace and accepts `+` and `_`
separators; the claims only use the parse-or-ValueError dichotomy.) -/
def pyIntStr (s : String) : Except String Int :=
  match s.data with
  | [] => Except.error "ValueError"
  | '-' :: cs =>
    if cs ≠ [] ∧ cs.all Char.isDigit then Except.ok (-(natOfDigits cs : Int))
    else Except.error "ValueError"
  | cs =>
    if cs.all Char.isDigit then Except.ok ((natOfDigits cs : Int))
    else Except.error "ValueError"

/-- Python `max(0, x)`. -/
def pyMax0 (x : Rat) : Rat :=
  if x ≤ 0 then 0 else x

/-- `pub = entry.get("published_parsed") or entry.get("updated_parsed")`:
Python `or` falls through to `updated_parsed` when `published_parsed` is
`None`. -/
def pubParsed (entry : FeedEntry) : Option Int :=
  match entry.published_parsed with
  | some p => some p
  | none => entry.updated_parsed

/-- The freshness block of `estimate_popularity` (lines 200–206): with a
parseable timestamp `pub`, add `max(0, 100 - age_hours)` where
`age_hours = (now - mktime(pub)) / 3600`; with none, the try/except
contributes nothing.  `now` is `time.time()` in epoch seconds. -/
def freshness_bonus (now : Int) (entry : FeedEntry) : Rat :=
  match pubParsed entry with
  | some pub => pyMax0 (100 - ((now - pub : Int) : Rat) / 3600)
  | none => 0

/-- The comment-count element's text, when the source has a
`popularity_selector`, the page was fetched, and `select_one` matched. -/
def comment_text (soup : Option ScrapedPage) (source : SourceConfig) : Option String :=
  match soup, source.popularity_selector with
  | some page, some sel => page.selector_text sel
  | _, _ => none

/-- The comment block of `estimate_popularity` (lines 208–216):
`comments = int("".join(filter(str.isdigit, el.get_text())))`, then
`score += comments * 2`, with `except ValueError: pass`.  Returns the
score contribution and the resulting `comments` value (0 unless the parse
succeeded). -/
def comment_step (soup : Option ScrapedPage) (source : SourceConfig) : Rat × Nat :=
  match comment_text soup source with
  | some txt =>
    match pyIntStr (pyDigits txt) with
    | Except.ok c => ((c : Rat) * 2, c.toNat)
    | Except.error _ => (0, 0)
  | none => (0, 0)

/-- The fixed engagement attributes scanned by lines 219–227. -/
def engagement_attrs : List String :=
  ["data-shares", "data-reactions", "data-likes"]

/-- One iteration of the engagement loop: `score += int(el[attr]) * 0.5`
with `except (ValueError, TypeError): pass`; an absent element or a
non-numeric value contributes 0. -/
def attr_contrib (soup : Option ScrapedPage) (attr : String) : Rat :=
  match soup with
  | some page =>
    match page.attr_value attr with
    | some v =>
      match pyIntStr v with
      | Except.ok n => (n : Rat) * (1 / 2)
      | Except.error _ => 0
    | none => 0
  | none => 0

/-- The whole engagement block: the sum of the three attributes'
contributions (the page is only consulted when it was fetched). -/
def engagement_step (soup : Option ScrapedPage) : Rat :=
  engagement_attrs.foldl (fun sc attr => sc + attr_contrib soup attr) 0

/-- `round(score, 2)`.  (CPython rounds half to even; `round` here rounds
half up — they agree except at exact half-cent values, which no claim
touches.) -/
def roundTo2 (x : Rat) : Rat :=
  (round (x * 100) : Int) / 100

/-- `estimate_popularity(entry, soup, source)` (lines 191–232): the sum of
the freshness bonus, the comment contribution, the engagement
contributions and the random jitter (`random.uniform(0, 5)`, passed in as
`jitter`), rounded to 2 decimals, paired with the comment count. -/
def estimate_popularity (now : Int) (jitter : Rat) (entry : FeedEntry)
    (soup : Option ScrapedPage) (source : SourceConfig) : Rat × Nat :=
  let fresh := freshness_bonus now entry
  let cs := comment_step soup source
  let eng := engagement_step soup
  (roundTo2 (fresh + cs.1 + eng + jitter), cs.2)

/-! ## Query-API pagination (`api.py`, `get_articles`, lines 52–56) -/

/-- Python `min(a, b)` on ints. -/
def pyMinInt (a b : Int) : Int :=
  if a ≤ b then a else b

/-- Normalization of a slice bound for `a[i:j]` with step 1 (CPython
`PySlice_AdjustIndices`): a negative index counts from the end and clamps
at 0; a non-negative one clamps at `len(a)`. -/
def pyIndex (n : Nat) (i : Int) : Nat :=
  if i < 0 then (i + n).toNat
  else if i ≤ (n : Int) then i.toNat
  else n

/-- Python `l[i:j]` (step 1): the elements from the normalized start to
the normalized stop. -/
def pySlice {α : Type} (l : List α) (i j : Int) : List α :=
  (l.take (pyIndex l.length j)).drop (pyIndex l.length i)

/-- The pagination of `get_articles` (api.py lines 52–56) after the
filters: `limit = min(int(request.args.get("limit", 20)), 100)`,
`offset = int(request.args.get("offset", 0))`,
`page = articles[offset : offset + limit]`.  A parameter is `none` when
the query string omits it (then the int default applies); a parameter
that does not parse as an int raises before any page is built and is out
of scope here. -/
def get_articles_page (articles : List Article) (limitParam offsetParam : Option Int) : List Article :=
  let limit := pyMinInt (limitParam.getD 20) 100
  let offset := offsetParam.getD 0
  pySlice articles offset (offset + limit)

/-! ## Concrete data for witnesses and counterexamples -/

/-- A batch of 151 pairwise distinct pending articles: more truly-new
articles than the retention cap can hold. -/
def exBigBatch : List Article :=
  (List.range 151).map (fun n => mkArt n "Dezeen" 0 Status.pending)

/-- A published store of 106 articles (large enough that a negative-limit
slice returns more than 100 of them). -/
def exBigStore : List Article :=
  (List.range 106).map (fun n => mkArt n "Dezeen" 0 Status.published)

/-- The stored record with id `1` of the C6 scenario (`{id:X}`). -/
def artX0 : Article := mkArt 1 "Dezeen" 0 Status.published

/-- The re-crawled record with the same id `1` (`{id:X}` in the new batch). -/
def artX : Article := mkArt 1 "Dezeen" 0 Status.published

/-- The new record with fresh id `2` (`{id:Y}`). -/
def artY : Article := mkArt 2 "ArchDaily" 0 Status.published

/-- A crawled article as the rewrite fallback receives one. -/
def exCrawled : Article := mkArt 7 "Dezeen" 90 Status.pending

/-- A small rewritten batch: one failed rewrite, one pending article. -/
def exRewritten : List Article :=
  [mkArt 3 "Dezeen" 90 Status.rewrite_failed, mkArt 4 "ArchDaily" 80 Status.pending]

/-- The pending article of `exRewritten` as `mark_as_published` stamps it. -/
def exStamped : Article :=
  { mkArt 4 "ArchDaily" 80 Status.pending with
    published_at_archyards := "2025-01-01T07:00:00+00:00",
    badge := "aggregated",
    status := Status.published }

/-! ## Lemmas about the selection engine -/

theorem dedupe_go_sublist (articles : List Article) :
    ∀ seen, (dedupe_go articles seen).Sublist articles := by
  induction articles with
  | nil => intro seen; simp [dedupe_go]
  | cons a rest ih =>
    intro seen
    simp only [dedupe_go]
    split
    · exact (ih seen).cons a
    · exact (ih (a.id :: seen)).cons₂ a

theorem select_go_shape (top_n : Nat) (l : List Article) :
    ∀ sel cnt, ∃ t, select_go top_n l sel cnt = sel ++ t ∧ t.Sublist l := by
  induction l with
  | nil =>
    intro sel cnt
    exact ⟨[], by simp [select_go], List.nil_sublist _⟩
  | cons art rest ih =>
    intro sel cnt
    simp only [select_go]
    split
    · exact ⟨[], by simp, List.nil_sublist _⟩
    · split
      · obtain ⟨t, ht, hs⟩ := ih (sel ++ [art]) _
        exact ⟨art :: t, by simpa using ht, hs.cons₂ art⟩
      · obtain ⟨t, ht, hs⟩ := ih sel cnt
        exact ⟨t, ht, hs.cons art⟩

theorem select_go_length (top_n : Nat) (l : List Article) :
    ∀ sel cnt, sel.length ≤ top_n → (select_go top_n l sel cnt).length ≤ top_n := by
  induction l with
  | nil => intro sel cnt h; simpa [select_go] using h
  | cons art rest ih =>
    intro sel cnt h
    simp only [select_go]
    split
    · exact h
    · rename_i hfull
      split
      · apply ih
        simp only [List.length_append, List.length_singleton]
        omega
      · exact ih sel cnt h

theorem select_go_source_cap (top_n : Nat) (l : List Article) :
    ∀ sel cnt,
      (∀ s, (sel.filter (fun a => a.source_name = s)).length = cnt s) →
      (∀ s, cnt s ≤ 2) →
      ∀ s, ((select_go top_n l sel cnt).filter (fun a => a.source_name = s)).length ≤ 2 := by
  induction l with
  | nil =>
    intro sel cnt hinv hle s
    simp only [select_go]
    rw [hinv s]
    exact hle s
  | cons art rest ih =>
    intro sel cnt hinv hle s
    simp only [select_go]
    split
    · rw [hinv s]; exact hle s
    · split
      · rename_i hcnt
        apply ih
        · intro s'
          rw [List.filter_append, List.length_append, hinv s']
          by_cases hsrc : art.source_name = s'
          · subst hsrc
            simp [List.filter]
          · have hsrc' : ¬ s' = art.source_name := fun h => hsrc h.symm
            simp [List.filter, hsrc, hsrc']
        · intro s'
          by_cases hsrc : s' = art.source_name
          · simp only [if_pos hsrc]; omega
          · simp only [if_neg hsrc]; exact hle s'
      · exact ih sel cnt hinv hle s

theorem sort_by_score_sorted (articles : List Article) :
    (sort_by_score articles).Pairwise score_ge :=
  List.sorted_insertionSort score_ge articles

theorem sort_by_score_subset (articles : List Article) :
    sort_by_score articles ⊆ articles :=
  (List.perm_insertionSort score_ge articles).subset

/-! ## Lemmas about the merge engine -/

theorem merge_sublist_filter_append (new_articles existing : List Article) :
    (merge_with_published new_articles existing).Sublist
      (new_articles.filter (fun a => a.id ∉ existing.map (fun b => b.id)) ++ existing) :=
  List.take_sublist 150 _

theorem mem_filter_id_not_in (new_articles existing : List Article) (a : Article)
    (ha : a ∈ new_articles.filter (fun x => x.id ∉ existing.map (fun b => b.id))) :
    a.id ∉ existing.map (fun b => b.id) := by
  have h := (List.mem_filter.mp ha).2
  rwa [decide_eq_true_eq] at h

/-! ## The claims -/

/-- C1: for every list of candidates and every `top_n`, the selection
engine (dedupe by id keeping the first occurrence, stable sort by
`popularity_score` descending, greedy fill with a per-source cap of 2)
returns a subset of the input, of size at most `top_n`, with at most 2
items per `source_name`, ordered by descending `popularity_score` among
the admitted items. -/
theorem select_guarantees (candidates : List Article) (top_n : Nat) :
    (∀ a ∈ select candidates top_n, a ∈ candidates) ∧
    (select candidates top_n).length ≤ top_n ∧
    (∀ s, ((select candidates top_n).filter (fun a => a.source_name = s)).length ≤ 2) ∧
    (select candidates top_n).Pairwise
      (fun a b => b.popularity_score ≤ a.popularity_score) := by
  obtain ⟨t, ht, hsub⟩ :=
    select_go_shape top_n (sort_by_score (dedupe_by_id candidates)) [] (fun _ => 0)
  have hsel : select candidates top_n = t := by simpa [select] using ht
  refine ⟨?_, ?_, ?_, ?_⟩
  · intro a ha
    rw [hsel] at ha
    exact (dedupe_go_sublist candidates []).subset
      (sort_by_score_subset _ (hsub.subset ha))
  · simp only [select]
    exact select_go_length _ _ _ _ (by simp)
  · simp only [select]
    exact select_go_source_cap _ _ _ _ (fun s => by simp) (fun s => by simp)
  · rw [hsel]
    exact List.Pairwise.sublist hsub (sort_by_score_sorted _)

/-- C3: for every new batch and every existing store, the merge result has
length at most the fixed retention cap of 150, and truncation drops
entries only from the tail: the pre-truncation list (surviving new
records prepended to the existing store) equals the result followed by
the dropped tail. -/
theorem merge_retention_invariant (new_articles existing : List Article) :
    (merge_with_published new_articles existing).length ≤ 150 ∧
    ∃ dropped,
      new_articles.filter (fun a => a.id ∉ existing.map (fun b => b.id)) ++ existing =
        merge_with_published new_articles existing ++ dropped := by
  constructor
  · simp only [merge_with_published, List.length_take]
    exact min_le_left _ _
  · refine ⟨(new_articles.filter (fun a => a.id ∉ existing.map (fun b => b.id)) ++
      existing).drop 150, ?_⟩
    simp only [merge_with_published]
    exact (List.take_append_drop 150 _).symm

/-- C2 counterexample: with 151 pairwise distinct truly-new articles and
an empty store, the first merge truncates one of them away, so the second
merge with the same batch re-prepends it and changes the store. -/
theorem merge_not_idempotent_at_cap :
    merge_with_published exBigBatch (merge_with_published exBigBatch []) ≠
      merge_with_published exBigBatch [] := by decide

/-- C2 amended: merging is idempotent whenever the merged list fits the
retention cap, i.e. the truly-new records plus the existing store hold at
most 150 entries (so truncation drops nothing); the counterexample
`merge_not_idempotent_at_cap` shows the unrestricted claim fails once
truncation bites. -/
theorem merge_idempotent_under_cap (new_articles existing : List Article)
    (h : (new_articles.filter (fun a => a.id ∉ existing.map (fun b => b.id))).length +
      existing.length ≤ 150) :
    merge_with_published new_articles (merge_with_published new_articles existing) =
      merge_with_published new_articles existing := by
  have hfull : merge_with_published new_articles existing =
      new_articles.filter (fun a => a.id ∉ existing.map (fun b => b.id)) ++ existing := by
    simp only [merge_with_published]
    exact List.take_of_length_le (by simpa using h)
  have hnil : new_articles.filter
      (fun a => a.id ∉ (merge_with_published new_articles existing).map (fun b => b.id)) = [] := by
    rw [List.filter_eq_nil_iff]
    intro a ha
    simp only [decide_eq_true_eq, not_not]
    rw [hfull, List.map_append, List.mem_append]
    by_cases hmem : a.id ∈ existing.map (fun b => b.id)
    · exact Or.inr hmem
    · refine Or.inl (List.mem_map_of_mem _ ?_)
      exact List.mem_filter.mpr ⟨ha, by simpa using hmem⟩
  conv_lhs => rw [merge_with_published, hnil]
  simp only [List.nil_append]
  exact List.take_of_length_le (by rw [hfull]; simpa using h)

/-- C2 witness: a concrete in-cap merge is idempotent. -/
theorem merge_idempotent_under_cap_witness :
    merge_with_published [artY] (merge_with_published [artY] [artX0]) =
      merge_with_published [artY] [artX0] :=
  merge_idempotent_under_cap [artY] [artX0] (by decide)

/-- C6: merge filters out every new record whose id already exists in the
store (the merged id multiset holds no extra copy of any id already
present), and prepends the surviving new records newest-first; in
particular for existing store `[{id:1}]` and new batch
`[{id:1}, {id:2}]`, merge yields `[{id:2}, {id:1}]` with id 1 not
duplicated. -/
theorem merge_dedupes_and_prepends :
    (∀ (new_articles existing : List Article) (i : Nat),
        i ∈ existing.map (fun b => b.id) →
        ((merge_with_published new_articles existing).map (fun b => b.id)).count i ≤
          (existing.map (fun b => b.id)).count i) ∧
    merge_with_published [artX, artY] [artX0] = [artY, artX0] := by
  constructor
  · intro new_articles existing i hmem
    have h1 : (merge_with_published new_articles existing).map (fun b => b.id) |>.Sublist
        ((new_articles.filter (fun x => x.id ∉ existing.map (fun b => b.id))).map
            (fun b => b.id) ++
          existing.map (fun b => b.id)) := by
      rw [← List.map_append]
      exact (merge_sublist_filter_append new_articles existing).map _
    have h2 : i ∉ (new_articles.filter
        (fun x => x.id ∉ existing.map (fun b => b.id))).map (fun b => b.id) := by
      intro hin
      obtain ⟨x, hx, hxe⟩ := List.mem_map.mp hin
      exact mem_filter_id_not_in new_articles existing x hx (hxe ▸ hmem)
    have h3 := h1.count_le i
    rwa [List.count_append, List.count_eq_zero.mpr h2, Nat.zero_add] at h3
  · decide

/-- C10 counterexample: the store `[]` has unique ids, yet merging the new
batch `[{id:1}, {id:1}]` (the code only filters new records against the
store's ids, not against each other) yields two records with the same id. -/
theorem merge_duplicate_id_counterexample :
    ¬ ((merge_with_published [artX, artX] []).map (fun a => a.id)).Nodup := by decide

/-- C10 amended: merge preserves id uniqueness provided the new batch's
ids are themselves pairwise distinct (which `crawl_all`'s dedupe step
guarantees for pipeline batches); the counterexample
`merge_duplicate_id_counterexample` shows store-side uniqueness alone is
not preserved when the new batch repeats an id. -/
theorem merge_preserves_id_nodup (new_articles existing : List Article)
    (hn : (new_articles.map (fun a => a.id)).Nodup)
    (he : (existing.map (fun a => a.id)).Nodup) :
    ((merge_with_published new_articles existing).map (fun a => a.id)).Nodup := by
  have hsub : (merge_with_published new_articles existing).map (fun a => a.id) |>.Sublist
      ((new_articles.filter (fun x => x.id ∉ existing.map (fun b => b.id))).map
          (fun a => a.id) ++
        existing.map (fun a => a.id)) := by
    rw [← List.map_append]
    exact (merge_sublist_filter_append new_articles existing).map _
  apply hsub.nodup
  apply List.Nodup.append
  · exact ((List.filter_sublist _).map _).nodup hn
  · exact he
  · intro i hi hie
    obtain ⟨x, hx, hxe⟩ := List.mem_map.mp hi
    exact mem_filter_id_not_in new_articles existing x hx (hxe ▸ hie)

/-- C10 witness: a concrete duplicate-free batch merged into a concrete
duplicate-free store keeps ids unique. -/
theorem merge_preserves_id_nodup_witness :
    ((merge_with_published [artX, artY] [artX0]).map (fun a => a.id)).Nodup :=
  merge_preserves_id_nodup [artX, artY] [artX0] (by decide) (by decide)

/-- C5: provided the existing store holds no `rewrite_failed` record, no
record with status `rewrite_failed` appears in the published output of the
merge step: every published record either was already in the store or is a
new record stamped `published` with the `aggregated` badge and the run's
timestamp — and only records whose status was `rewritten` or `pending`
were stamped (a `rewrite_failed` record of the batch is silently dropped
by the publish filter). -/
theorem publish_excludes_rewrite_failed (rewritten existing : List Article) (now : String)
    (h : ∀ b ∈ existing, b.status ≠ Status.rewrite_failed) :
    ∀ a ∈ publish_step rewritten existing now,
      a.status ≠ Status.rewrite_failed ∧
        (a ∈ existing ∨
          (a.status = Status.published ∧ a.badge = "aggregated" ∧
            a.published_at_archyards = now)) := by
  intro a ha
  have hstep : a ∈ (mark_as_published (to_publish_of rewritten) now).filter
      (fun x => x.id ∉ existing.map (fun b => b.id)) ++ existing :=
    (merge_sublist_filter_append _ existing).subset ha
  rcases List.mem_append.mp hstep with hnew | hold
  · have hm : a ∈ mark_as_published (to_publish_of rewritten) now :=
      (List.filter_sublist _).subset hnew
    obtain ⟨b, _, hba⟩ := List.mem_map.mp (by simpa [mark_as_published] using hm)
    constructor
    · rw [← hba]; simp
    · refine Or.inr ?_
      rw [← hba]
      exact ⟨rfl, rfl, rfl⟩
  · exact ⟨h a hold, Or.inl hold⟩

/-- C5 witness: in the concrete run over `exRewritten` (one
`rewrite_failed` record, one `pending` record) and an empty store, the
stamped pending record is published and is not `rewrite_failed`. -/
theorem publish_excludes_rewrite_failed_witness :
    exStamped.status ≠ Status.rewrite_failed ∧
      (exStamped ∈ ([] : List Article) ∨
        (exStamped.status = Status.published ∧ exStamped.badge = "aggregated" ∧
          exStamped.published_at_archyards = "2025-01-01T07:00:00+00:00")) :=
  publish_excludes_rewrite_failed exRewritten [] "2025-01-01T07:00:00+00:00"
    (by decide) exStamped (by decide)

/-- C4 (code bug): with rewriting disabled, the fallback list
comprehension of `run_pipeline` raises `TypeError` on every non-empty
crawled batch — the json round-trip of an article's `__dict__` already
holds the key `status` (the dataclass default `pending`), so
`dict(**a, status="pending")` passes the keyword `status` twice — instead
of publishing the batch unrewritten. -/
theorem rewrite_fallback_raises (a : Article) (rest : List Article) :
    rewrite_skip_fallback (a :: rest) =
      Except.error "TypeError: dict got multiple values for keyword argument status" := rfl

/-- C8 (code bug): when the published store exists and `shutil.copy`
raises, the error propagates out of `archive_previous` — neither its body
nor its call site in `run_pipeline` has a try/except — so the remaining
crawl, rewrite and publish steps never run; the no-op part of the claim
does hold: with no published store, or with a working copy, `archive_previous`
returns normally. -/
theorem archive_copy_failure_aborts_run :
    pipeline_through_archive ⟨true, true⟩ = Except.error "shutil.copy raised" ∧
    archive_previous ⟨false, true⟩ = Except.ok () ∧
    archive_previous ⟨true, false⟩ = Except.ok () :=
  ⟨rfl, rfl, rfl⟩

/-- C7: the scoring function is total on its inputs, and each fallible
sub-step degrades to a zero contribution: no parseable published/updated
timestamp means a freshness bonus of 0; a missing or non-numeric
comment-count value leaves the comment contribution and `comment_count`
both 0; an absent or non-numeric engagement attribute contributes 0; and
the final score is exactly the sum of the independent contributions plus
the jitter, rounded to two decimals. -/
theorem estimate_popularity_degrades (now : Int) (jitter : Rat) (entry : FeedEntry)
    (soup : Option ScrapedPage) (source : SourceConfig) :
    (pubParsed entry = none → freshness_bonus now entry = 0) ∧
    (comment_text soup source = none → comment_step soup source = (0, 0)) ∧
    (∀ txt, comment_text soup source = some txt →
        (∀ n, pyIntStr (pyDigits txt) ≠ Except.ok n) →
        comment_step soup source = (0, 0)) ∧
    (∀ page attr, soup = some page → page.attr_value attr = none →
        attr_contrib soup attr = 0) ∧
    (∀ page attr v, soup = some page → page.attr_value attr = some v →
        (∀ n, pyIntStr v ≠ Except.ok n) → attr_contrib soup attr = 0) ∧
    estimate_popularity now jitter entry soup source =
      (roundTo2 (freshness_bonus now entry + (comment_step soup source).1 +
          engagement_step soup + jitter),
        (comment_step soup source).2) := by
  refine ⟨?_, ?_, ?_, ?_, ?_, rfl⟩
  · intro h
    simp [freshness_bonus, h]
  · intro h
    simp [comment_step, h]
  · intro txt h hn
    simp only [comment_step, h]
    cases hp : pyIntStr (pyDigits txt) with
    | ok n => exact absurd hp (hn n)
    | error e => rfl
  · intro page attr hs h
    simp [attr_contrib, hs, h]
  · intro page attr v hs hv hn
    simp only [attr_contrib, hs, hv]
    cases hp : pyIntStr v with
    | ok n => exact absurd hp (hn n)
    | error e => rfl

theorem pyIndex_le (n : Nat) (i : Int) : pyIndex n i ≤ n := by
  simp only [pyIndex]
  split_ifs <;> omega

theorem pyIndex_add_le (n : Nat) (i : Int) (k : Nat) :
    pyIndex n (i + k) ≤ pyIndex n i + k := by
  simp only [pyIndex]
  split_ifs <;> omega

theorem pySlice_length_le {α : Type} (l : List α) (off lim : Int) (h : 0 ≤ lim) :
    (pySlice l off (off + lim)).length ≤ lim.toNat := by
  rw [show off + lim = off + (lim.toNat : Int) by omega]
  simp only [pySlice, List.length_drop, List.length_take]
  have h1 := pyIndex_add_le l.length off lim.toNat
  have h2 := pyIndex_le l.length off
  have h3 := pyIndex_le l.length (off + (lim.toNat : Int))
  omega

/-- C9 counterexample: a negative `limit` query parameter survives the
`min(..., 100)` cap and, through Python's negative-index slice semantics,
`articles[0:-5]` on a 106-article store returns 101 articles — more than
100. -/
theorem pagination_negative_limit_counterexample :
    ¬ (get_articles_page exBigStore (some (-5)) (some 0)).length ≤ 100 := by decide

/-- C9 amended: provided the `limit` query parameter (default 20) is
non-negative, the returned page holds at most 100 articles for every
store and every offset, and with `limit` absent at most its default of 20;
the counterexample `pagination_negative_limit_counterexample` shows a
negative `limit` can exceed 100 via Python slice semantics. -/
theorem get_articles_page_bounded (articles : List Article)
    (limitParam offsetParam : Option Int) (h : 0 ≤ limitParam.getD 20) :
    (get_articles_page articles limitParam offsetParam).length ≤ 100 ∧
    (get_articles_page articles none offsetParam).length ≤ 20 := by
  constructor
  · have hl : 0 ≤ pyMinInt (limitParam.getD 20) 100 := by
      simp only [pyMinInt]
      split <;> omega
    have hlen := pySlice_length_le articles (offsetParam.getD 0)
      (pyMinInt (limitParam.getD 20) 100) hl
    have hcap : (pyMinInt (limitParam.getD 20) 100).toNat ≤ 100 := by
      simp only [pyMinInt]
      split <;> omega
    exact le_trans hlen hcap
  · have hlen := pySlice_length_le articles (offsetParam.getD 0)
      (pyMinInt ((none : Option Int).getD 20) 100) (by decide)
    exact le_trans hlen (by decide)

/-- C9 witness: a concrete over-cap limit of 150 is clamped to 100 and a
concrete default-limit page stays within 20. -/
theorem get_articles_page_bounded_witness :
    (get_articles_page exBigStore (some 150) (some 3)).length ≤ 100 ∧
    (get_articles_page exBigStore none (some 3)).length ≤ 20 :=
  get_articles_page_bounded exBigStore (some 150) (some 3) (by decide)

end Archyards

